import Mathlib

/-!
Verification of `ai_processor.py` (website-crawler repository).

The program reads a JSON request on stdin, validates four required fields,
dispatches on the `provider` field to one of three vendor handlers
(`process_openai`, `process_claude`, `process_gemini`), and prints the
handler's result string.  We embed the program shallowly: parsed JSON
documents become the inductive `JValue`, the external world (vendor client
libraries, the network call) becomes explicit oracle records
(`OpenAIEnv`, `ClaudeEnv`, `GeminiEnv`), Python exceptions become explicit
result constructors, and `main` becomes a pure function from the stdin text,
a JSON-parse oracle and the world to the printed line, the exit code and the
list of vendor handlers that were invoked.
-/

namespace AIProcessor

/-- A decoded JSON document, as produced by Python's `json.loads`:
`null`, booleans, numbers (we model the integer case), strings, arrays
and objects.  Object fields are kept as an association list with the
usual first-match lookup (Python dicts have unique keys). -/
inductive JValue where
  | jnull : JValue
  | jbool : Bool → JValue
  | jnum : Int → JValue
  | jstr : String → JValue
  | jarr : List JValue → JValue
  | jobj : List (String × JValue) → JValue
deriving Repr

/-- Python truthiness of a decoded JSON value: `None`, `False`, `0`,
`""`, `[]` and `{}` are falsy, everything else truthy. -/
def truthy : JValue → Bool
  | .jnull => false
  | .jbool b => b
  | .jnum n => n != 0
  | .jstr s => s ≠ ""
  | .jarr xs => ¬ xs.isEmpty
  | .jobj fs => ¬ fs.isEmpty

/-- Python type name of a decoded JSON value (`type(x).__name__`),
as it appears in `AttributeError` messages. -/
def pyTypeName : JValue → String
  | .jnull => "NoneType"
  | .jbool _ => "bool"
  | .jnum _ => "int"
  | .jstr _ => "str"
  | .jarr _ => "list"
  | .jobj _ => "dict"

/-- `dict.get(key)`: `some` the stored value, `none` (Python `None`)
when the key is absent. -/
def getField (fields : List (String × JValue)) (key : String) : Option JValue :=
  match fields with
  | [] => none
  | (k, v) :: rest => if k = key then some v else getField rest key

/-- Truthiness of `payload.get(field)` (absence is Python `None`, falsy). -/
def truthyOpt : Option JValue → Bool
  | none => false
  | some v => truthy v

/-- Python `str.strip()` with no argument: remove leading and trailing
whitespace.  (Defined structurally over the character list so that
concrete instances reduce; agrees with Python on the ASCII whitespace
the program can meet.) -/
def pyStrip (s : String) : String :=
  ⟨((s.data.dropWhile Char.isWhitespace).reverse.dropWhile Char.isWhitespace).reverse⟩

/-- Python `str.lower()` (ASCII case folding suffices for the provider
names the program compares against). -/
def pyLower (s : String) : String :=
  ⟨s.data.map Char.toLower⟩

/-- `str(KeyError(key))` in Python: the key surrounded by single quotes. -/
def keyErrorMsg (key : String) : String := "'" ++ key ++ "'"

/-- `str(AttributeError(...))` in Python:
`'<type>' object has no attribute '<attr>'`. -/
def attrErrorMsg (tyName attr : String) : String :=
  "'" ++ tyName ++ "' object has no attribute '" ++ attr ++ "'"

mutual

/-- Python `repr` of a decoded JSON value.  Strings are rendered with
single quotes (Python's escaping of quotes and control characters inside
the string is not reproduced; no claim exercises it). -/
def pyRepr : JValue → String
  | .jnull => "None"
  | .jbool true => "True"
  | .jbool false => "False"
  | .jnum n => toString n
  | .jstr s => "'" ++ s ++ "'"
  | .jarr xs => "[" ++ pyReprList xs ++ "]"
  | .jobj fs => "\x7b" ++ pyReprFields fs ++ "\x7d"

def pyReprList : List JValue → String
  | [] => ""
  | [v] => pyRepr v
  | v :: rest => pyRepr v ++ ", " ++ pyReprList rest

def pyReprFields : List (String × JValue) → String
  | [] => ""
  | [f] => "'" ++ f.1 ++ "': " ++ pyRepr f.2
  | f :: rest => "'" ++ f.1 ++ "': " ++ pyRepr f.2 ++ ", " ++ pyReprFields rest

end

/-- Python `str` of a decoded JSON value, as used by f-string
interpolation: identity on strings, `repr`-like on everything else. -/
def pyStr : JValue → String
  | .jstr s => s
  | v => pyRepr v

/-- Outcome of one vendor API call, as observed by the handler's code:
either the extracted response text (`response.choices[0].message.content`
for OpenAI, `message.content[0].text` for Claude) before `.strip()`, or
an exception whose `str()` is the carried message. -/
inductive CallResult where
  | ok : String → CallResult
  | exn : String → CallResult

/-- Outcome of the Gemini streaming call: the full sequence of chunks
(each chunk's `.text` attribute, `none` modelling Python `None`), or an
exception raised by the call / during iteration. -/
inductive StreamResult where
  | chunks : List (Option String) → StreamResult
  | exn : String → StreamResult

/-- The external world seen by `process_openai`: whether `import openai`
succeeds, whether `openai.OpenAI(api_key=...)` raises (and with what
message), and what the chat-completion call returns for a given model
value and user-message string. -/
structure OpenAIEnv where
  importOk : Bool
  clientExn : Option String
  call : JValue → String → CallResult

/-- The external world seen by `process_claude` (import of `anthropic`,
client construction, `client.messages.create`). -/
structure ClaudeEnv where
  importOk : Bool
  clientExn : Option String
  call : JValue → String → CallResult

/-- The external world seen by `process_gemini` (import of `google.genai`,
client construction, `client.models.generate_content_stream`). -/
structure GeminiEnv where
  importOk : Bool
  clientExn : Option String
  stream : JValue → String → StreamResult

/-- `process_openai(payload)` from `ai_processor.py`.  The body follows the
Python order of evaluation inside the `try`: `import openai`; the client
constructor reads `payload["api_key"]`; `model = payload["model"] or
"gpt-4o-mini"`; the f-string reads `payload['prompt']` then
`payload['content']`; the call is made; the extracted text is `.strip()`ed.
`except ImportError` yields the install message; `except Exception`
(including `KeyError` from a missing key) yields `"OpenAI Error: " + str(e)`
with `str(KeyError(k)) = "'k'"`. -/
def process_openai (env : OpenAIEnv) (payload : List (String × JValue)) : String :=
  if env.importOk then
    match getField payload "api_key" with
    | none => "OpenAI Error: " ++ keyErrorMsg "api_key"
    | some _ =>
      match env.clientExn with
      | some msg => "OpenAI Error: " ++ msg
      | none =>
        match getField payload "model" with
        | none => "OpenAI Error: " ++ keyErrorMsg "model"
        | some mv =>
          let model := if truthy mv then mv else JValue.jstr "gpt-4o-mini"
          match getField payload "prompt" with
          | none => "OpenAI Error: " ++ keyErrorMsg "prompt"
          | some pv =>
            match getField payload "content" with
            | none => "OpenAI Error: " ++ keyErrorMsg "content"
            | some cv =>
              match env.call model
                  (pyStr pv ++ "\n\nContent to analyze:\n" ++ pyStr cv) with
              | .ok text => pyStrip text
              | .exn msg => "OpenAI Error: " ++ msg
  else "Error: OpenAI library not installed. Run: pip install openai"

/-- `process_claude(payload)` from `ai_processor.py`; same structure as
`process_openai` with the Anthropic default model and error prefixes. -/
def process_claude (env : ClaudeEnv) (payload : List (String × JValue)) : String :=
  if env.importOk then
    match getField payload "api_key" with
    | none => "Claude Error: " ++ keyErrorMsg "api_key"
    | some _ =>
      match env.clientExn with
      | some msg => "Claude Error: " ++ msg
      | none =>
        match getField payload "model" with
        | none => "Claude Error: " ++ keyErrorMsg "model"
        | some mv =>
          let model := if truthy mv then mv else JValue.jstr "claude-3-5-haiku-20241022"
          match getField payload "prompt" with
          | none => "Claude Error: " ++ keyErrorMsg "prompt"
          | some pv =>
            match getField payload "content" with
            | none => "Claude Error: " ++ keyErrorMsg "content"
            | some cv =>
              match env.call model
                  (pyStr pv ++ "\n\nContent to analyze:\n" ++ pyStr cv) with
              | .ok text => pyStrip text
              | .exn msg => "Claude Error: " ++ msg
  else "Error: Anthropic library not installed. Run: pip install anthropic"

/-- The accumulation loop of `process_gemini`:
`result_text = ""` then `for chunk in ...: if chunk.text: result_text +=
chunk.text`.  A chunk whose `.text` is `None` or `""` is skipped. -/
def geminiCollect (cs : List (Option String)) : String :=
  cs.foldl (fun acc c =>
    match c with
    | some t => if t ≠ "" then acc ++ t else acc
    | none => acc) ""

/-- `process_gemini(payload)` from `ai_processor.py` (the streaming
revision): `from google import genai`; client constructor reads
`payload["api_key"]`; `model = payload["model"] or
"gemini-2.5-flash-preview-05-20"`; `input_text` is the f-string over
`payload['prompt']` and `payload['content']`; the stream is iterated to
the end accumulating chunk text, and the accumulated string is
`.strip()`ed.  `except ImportError` / `except Exception` as in the other
handlers, with the Google GenAI install message and `"Gemini Error: "`. -/
def process_gemini (env : GeminiEnv) (payload : List (String × JValue)) : String :=
  if env.importOk then
    match getField payload "api_key" with
    | none => "Gemini Error: " ++ keyErrorMsg "api_key"
    | some _ =>
      match env.clientExn with
      | some msg => "Gemini Error: " ++ msg
      | none =>
        match getField payload "model" with
        | none => "Gemini Error: " ++ keyErrorMsg "model"
        | some mv =>
          let model := if truthy mv then mv else JValue.jstr "gemini-2.5-flash-preview-05-20"
          match getField payload "prompt" with
          | none => "Gemini Error: " ++ keyErrorMsg "prompt"
          | some pv =>
            match getField payload "content" with
            | none => "Gemini Error: " ++ keyErrorMsg "content"
            | some cv =>
              match env.stream model
                  (pyStr pv ++ "\n\nContent to analyze:\n" ++ pyStr cv) with
              | .chunks cs => pyStrip (geminiCollect cs)
              | .exn msg => "Gemini Error: " ++ msg
  else "Error: Google GenAI library not installed. Run: pip install google-genai"

/-- The three provider handlers `main` can dispatch to. -/
inductive Provider where
  | openai : Provider
  | claude : Provider
  | gemini : Provider
deriving DecidableEq, Repr

/-- The external world for a whole run: one environment per handler. -/
structure World where
  openaiEnv : OpenAIEnv
  claudeEnv : ClaudeEnv
  geminiEnv : GeminiEnv

/-- Observable outcome of one process run: the single line printed to
stdout (without the trailing newline `print` adds), the process exit code,
and which vendor handlers were invoked, in order. -/
structure MainResult where
  output : String
  exitCode : Nat
  handlersCalled : List Provider

/-- `required_fields` from `main`. -/
def required_fields : List String := ["provider", "api_key", "prompt", "content"]

/-- The validation loop of `main`: the first field of `required_fields`
for which `payload.get(field)` is absent or falsy, if any. -/
def firstMissingField (fields : List (String × JValue)) : Option String :=
  required_fields.find? (fun f => ! truthyOpt (getField fields f))

/-- `main()` from `ai_processor.py`.  `stdin` is the raw standard input;
`parse` is the `json.loads` oracle (`Except.error e` models
`json.JSONDecodeError` with `str(e) = e`); `w` supplies the vendor
environments.  The body mirrors the Python: strip stdin and fail on empty;
parse; validate the four required fields in order via `payload.get`
(a non-dict payload raises `AttributeError` on `.get`, caught by the
outer `except Exception`); lower-case `payload["provider"]` (a non-string
raises `AttributeError` on `.lower`); dispatch to a handler or build the
unknown-provider string; print the result and exit 0. -/
def main (stdin : String) (parse : String → Except String JValue) (w : World) : MainResult :=
  let input_data := pyStrip stdin
  if input_data = "" then
    ⟨"Error: No input data received", 1, []⟩
  else
    match parse input_data with
    | .error e => ⟨"Error: Invalid JSON input: " ++ e, 1, []⟩
    | .ok payload =>
      match payload with
      | .jobj fields =>
        match firstMissingField fields with
        | some f => ⟨"Error: Missing required field: " ++ f, 1, []⟩
        | none =>
          match getField fields "provider" with
          | none => ⟨"Error: " ++ keyErrorMsg "provider", 1, []⟩
          | some pv =>
            match pv with
            | .jstr s =>
              let provider := pyLower s
              if provider = "openai" then
                ⟨process_openai w.openaiEnv fields, 0, [Provider.openai]⟩
              else if provider = "claude" then
                ⟨process_claude w.claudeEnv fields, 0, [Provider.claude]⟩
              else if provider = "gemini" then
                ⟨process_gemini w.geminiEnv fields, 0, [Provider.gemini]⟩
              else
                ⟨"Error: Unknown AI provider: " ++ provider, 0, []⟩
            | _ => ⟨"Error: " ++ attrErrorMsg (pyTypeName pv) "lower", 1, []⟩
      | _ => ⟨"Error: " ++ attrErrorMsg (pyTypeName payload) "get", 1, []⟩

/-- Claim C8: if standard input is empty or contains only whitespace after
trimming, the process prints exactly `Error: No input data received`, exits
with a non-zero exit code, attempts no JSON parse (the result is the same
for every parse oracle, which is how "no parse is attempted" manifests in
the pure embedding), and invokes no provider handler. -/
theorem C8_empty_input (stdin : String) (parse : String → Except String JValue)
    (w : World) (h : pyStrip stdin = "") :
    main stdin parse w = ⟨"Error: No input data received", 1, []⟩ := by
  unfold main
  simp [h]

/-- Witness for C8 at whitespace-only stdin. -/
theorem C8_empty_input_witness :
    main " \n\t " (fun _ => Except.error "unreachable")
      ⟨⟨true, none, fun _ _ => CallResult.ok ""⟩,
       ⟨true, none, fun _ _ => CallResult.ok ""⟩,
       ⟨true, none, fun _ _ => StreamResult.chunks []⟩⟩
      = ⟨"Error: No input data received", 1, []⟩ :=
  C8_empty_input _ _ _ (by decide)

/-- Claim C4: for every validated request whose lower-cased `provider` is
none of `openai`, `claude`, `gemini`, the process prints exactly
`Error: Unknown AI provider: <lower-cased provider>` as its single output
line, exits with code 0, and calls no vendor handler. -/
theorem C4_unknown_provider (stdin : String) (parse : String → Except String JValue)
    (w : World) (fields : List (String × JValue)) (s : String)
    (hne : pyStrip stdin ≠ "")
    (hparse : parse (pyStrip stdin) = Except.ok (JValue.jobj fields))
    (hval : firstMissingField fields = none)
    (hprov : getField fields "provider" = some (JValue.jstr s))
    (h1 : pyLower s ≠ "openai") (h2 : pyLower s ≠ "claude") (h3 : pyLower s ≠ "gemini") :
    main stdin parse w = ⟨"Error: Unknown AI provider: " ++ pyLower s, 0, []⟩ := by
  unfold main
  simp [hne, hparse, hval, hprov, h1, h2, h3]

/-- Witness for C4: provider `mistral` yields output exactly
`Error: Unknown AI provider: mistral`, exit code 0, no handler called. -/
theorem C4_unknown_provider_witness :
    main "payload-with-provider-mistral"
      (fun _ => Except.ok (JValue.jobj
        [("provider", JValue.jstr "mistral"), ("api_key", JValue.jstr "k"),
         ("prompt", JValue.jstr "p"), ("content", JValue.jstr "c")]))
      ⟨⟨true, none, fun _ _ => CallResult.ok ""⟩,
       ⟨true, none, fun _ _ => CallResult.ok ""⟩,
       ⟨true, none, fun _ _ => StreamResult.chunks []⟩⟩
      = ⟨"Error: Unknown AI provider: mistral", 0, []⟩ :=
  C4_unknown_provider _ _ _
    [("provider", JValue.jstr "mistral"), ("api_key", JValue.jstr "k"),
     ("prompt", JValue.jstr "p"), ("content", JValue.jstr "c")] "mistral"
    (by decide) rfl rfl rfl (by decide) (by decide) (by decide)

/-- Claim C6: provider dispatch is case-insensitive — for every validated
request whose `provider` value lower-cases to `openai`, `claude` or
`gemini`, the corresponding handler is invoked (and its result printed
with exit code 0). -/
theorem C6_case_insensitive_dispatch (stdin : String)
    (parse : String → Except String JValue) (w : World)
    (fields : List (String × JValue)) (s : String)
    (hne : pyStrip stdin ≠ "")
    (hparse : parse (pyStrip stdin) = Except.ok (JValue.jobj fields))
    (hval : firstMissingField fields = none)
    (hprov : getField fields "provider" = some (JValue.jstr s)) :
    (pyLower s = "openai" →
      main stdin parse w = ⟨process_openai w.openaiEnv fields, 0, [Provider.openai]⟩) ∧
    (pyLower s = "claude" →
      main stdin parse w = ⟨process_claude w.claudeEnv fields, 0, [Provider.claude]⟩) ∧
    (pyLower s = "gemini" →
      main stdin parse w = ⟨process_gemini w.geminiEnv fields, 0, [Provider.gemini]⟩) := by
  unfold main
  refine ⟨fun h => ?_, fun h => ?_, fun h => ?_⟩ <;>
    simp [hne, hparse, hval, hprov, h]

/-- Witness for C6: `OpenAI`, `CLAUDE` and `GeMiNi` all route to their
handlers. -/
theorem C6_case_insensitive_dispatch_witness :
    (main "x" (fun _ => Except.ok (JValue.jobj
        [("provider", JValue.jstr "OpenAI"), ("api_key", JValue.jstr "k"),
         ("prompt", JValue.jstr "p"), ("content", JValue.jstr "c")]))
      ⟨⟨false, none, fun _ _ => CallResult.ok ""⟩,
       ⟨false, none, fun _ _ => CallResult.ok ""⟩,
       ⟨false, none, fun _ _ => StreamResult.chunks []⟩⟩).handlersCalled
      = [Provider.openai] ∧
    (main "x" (fun _ => Except.ok (JValue.jobj
        [("provider", JValue.jstr "CLAUDE"), ("api_key", JValue.jstr "k"),
         ("prompt", JValue.jstr "p"), ("content", JValue.jstr "c")]))
      ⟨⟨false, none, fun _ _ => CallResult.ok ""⟩,
       ⟨false, none, fun _ _ => CallResult.ok ""⟩,
       ⟨false, none, fun _ _ => StreamResult.chunks []⟩⟩).handlersCalled
      = [Provider.claude] ∧
    (main "x" (fun _ => Except.ok (JValue.jobj
        [("provider", JValue.jstr "GeMiNi"), ("api_key", JValue.jstr "k"),
         ("prompt", JValue.jstr "p"), ("content", JValue.jstr "c")]))
      ⟨⟨false, none, fun _ _ => CallResult.ok ""⟩,
       ⟨false, none, fun _ _ => CallResult.ok ""⟩,
       ⟨false, none, fun _ _ => StreamResult.chunks []⟩⟩).handlersCalled
      = [Provider.gemini] := by
  refine ⟨?_, ?_, ?_⟩
  · rw [(C6_case_insensitive_dispatch _ _ _
      [("provider", JValue.jstr "OpenAI"), ("api_key", JValue.jstr "k"),
       ("prompt", JValue.jstr "p"), ("content", JValue.jstr "c")] "OpenAI"
      (by decide) rfl rfl rfl).1 (by decide)]
  · rw [(C6_case_insensitive_dispatch _ _ _
      [("provider", JValue.jstr "CLAUDE"), ("api_key", JValue.jstr "k"),
       ("prompt", JValue.jstr "p"), ("content", JValue.jstr "c")] "CLAUDE"
      (by decide) rfl rfl rfl).2.1 (by decide)]
  · rw [(C6_case_insensitive_dispatch _ _ _
      [("provider", JValue.jstr "GeMiNi"), ("api_key", JValue.jstr "k"),
       ("prompt", JValue.jstr "p"), ("content", JValue.jstr "c")] "GeMiNi"
      (by decide) rfl rfl rfl).2.2 (by decide)]

/-- Claim C2: for every parsed JSON object payload, the required fields are
checked via `payload.get` in the fixed order `provider`, `api_key`,
`prompt`, `content` (the order of `required_fields`, over which the first
failing field is selected by `List.find?`); for the first absent-or-falsy
field the process prints exactly `Error: Missing required field: <field>`,
exits with code 1, and calls no provider handler. -/
theorem C2_missing_required_field (stdin : String)
    (parse : String → Except String JValue) (w : World)
    (fields : List (String × JValue)) (f : String)
    (hne : pyStrip stdin ≠ "")
    (hparse : parse (pyStrip stdin) = Except.ok (JValue.jobj fields))
    (hmiss : List.find? (fun g => ! truthyOpt (getField fields g)) required_fields
      = some f) :
    main stdin parse w = ⟨"Error: Missing required field: " ++ f, 1, []⟩ := by
  unfold main
  simp [hne, hparse, firstMissingField, hmiss]

/-- Witness for C2: a payload with truthy `provider` and `api_key` but an
empty `prompt` fails on `prompt`. -/
theorem C2_missing_required_field_witness :
    main "x" (fun _ => Except.ok (JValue.jobj
        [("provider", JValue.jstr "openai"), ("api_key", JValue.jstr "k"),
         ("prompt", JValue.jstr ""), ("content", JValue.jstr "c")]))
      ⟨⟨true, none, fun _ _ => CallResult.ok ""⟩,
       ⟨true, none, fun _ _ => CallResult.ok ""⟩,
       ⟨true, none, fun _ _ => StreamResult.chunks []⟩⟩
      = ⟨"Error: Missing required field: prompt", 1, []⟩ :=
  C2_missing_required_field _ _ _ _ "prompt" (by decide) rfl (by decide)

/-- Claim C9 (invariant): no vendor handler is ever invoked unless all four
required fields are present and truthy in the parsed payload — whenever a
run records a handler invocation, the input parsed to a JSON object whose
`provider`, `api_key`, `prompt` and `content` entries are all truthy. -/
theorem C9_no_vendor_call_without_validation (stdin : String)
    (parse : String → Except String JValue) (w : World) (p : Provider)
    (h : p ∈ (main stdin parse w).handlersCalled) :
    ∃ fields, parse (pyStrip stdin) = Except.ok (JValue.jobj fields) ∧
      ∀ f ∈ required_fields, truthyOpt (getField fields f) = true := by
  unfold main at h
  by_cases h0 : pyStrip stdin = ""
  · simp [h0] at h
  · simp only [h0, if_neg, ite_false] at h
    cases hp : parse (pyStrip stdin) with
    | error e => rw [hp] at h; simp at h
    | ok payload =>
      rw [hp] at h
      cases payload with
      | jobj fields =>
        cases hm : firstMissingField fields with
        | some f => simp [hm] at h
        | none =>
          refine ⟨fields, rfl, fun f hf => ?_⟩
          unfold firstMissingField at hm
          have := List.find?_eq_none.mp hm f hf
          simpa using this
      | jnull => simp at h
      | jbool b => simp at h
      | jnum n => simp at h
      | jstr s => simp at h
      | jarr xs => simp at h

/-- Witness for C9: a run that invokes the OpenAI handler, whose parsed
payload indeed has all four fields truthy. -/
theorem C9_no_vendor_call_without_validation_witness :
    ∃ fields,
      (Except.ok (JValue.jobj
        [("provider", JValue.jstr "openai"), ("api_key", JValue.jstr "k"),
         ("prompt", JValue.jstr "p"), ("content", JValue.jstr "c")])
        : Except String JValue) = Except.ok (JValue.jobj fields) ∧
      ∀ f ∈ required_fields, truthyOpt (getField fields f) = true :=
  C9_no_vendor_call_without_validation "x"
    (fun _ => Except.ok (JValue.jobj
      [("provider", JValue.jstr "openai"), ("api_key", JValue.jstr "k"),
       ("prompt", JValue.jstr "p"), ("content", JValue.jstr "c")]))
    ⟨⟨true, none, fun _ _ => CallResult.ok "hi"⟩,
     ⟨true, none, fun _ _ => CallResult.ok "hi"⟩,
     ⟨true, none, fun _ _ => StreamResult.chunks []⟩⟩
    Provider.openai (by decide)

/-- Boolean string-prefix test (`p` is a prefix of `s`), used to state
which diagnostic family an output line belongs to. -/
def strPrefixOf (p s : String) : Bool := p.data.isPrefixOf s.data

/-- Claim C10: for every input that parses as valid JSON but is not a JSON
object, the process exits with code 1 and prints the generic caught-exception
line `Error: ` followed by the `AttributeError` message from the failed
`payload.get` access; that line begins with `Error: ` and is none of the
three specified validation messages, and no handler is called. -/
theorem C10_nonobject_payload (stdin : String)
    (parse : String → Except String JValue) (w : World) (v : JValue)
    (hne : pyStrip stdin ≠ "")
    (hparse : parse (pyStrip stdin) = Except.ok v)
    (hno : ∀ fields, v ≠ JValue.jobj fields) :
    main stdin parse w = ⟨"Error: " ++ attrErrorMsg (pyTypeName v) "get", 1, []⟩ ∧
    strPrefixOf "Error: " (main stdin parse w).output = true ∧
    (main stdin parse w).output ≠ "Error: No input data received" ∧
    strPrefixOf "Error: Missing required field: " (main stdin parse w).output = false ∧
    strPrefixOf "Error: Invalid JSON input: " (main stdin parse w).output = false := by
  have hmain : main stdin parse w
      = ⟨"Error: " ++ attrErrorMsg (pyTypeName v) "get", 1, []⟩ := by
    unfold main
    cases v with
    | jobj fields => exact absurd rfl (hno fields)
    | jnull => simp [hne, hparse]
    | jbool b => simp [hne, hparse]
    | jnum n => simp [hne, hparse]
    | jstr s => simp [hne, hparse]
    | jarr xs => simp [hne, hparse]
  refine ⟨hmain, ?_, ?_, ?_, ?_⟩ <;> rw [hmain] <;> cases v <;>
    simp only [pyTypeName] <;>
    first
      | (exact absurd rfl (hno _))
      | decide

/-- Witness for C10 at the JSON input `[]` (a JSON array): output
`Error: 'list' object has no attribute 'get'`, exit code 1. -/
theorem C10_nonobject_payload_witness :
    main "[]" (fun _ => Except.ok (JValue.jarr []))
      ⟨⟨true, none, fun _ _ => CallResult.ok ""⟩,
       ⟨true, none, fun _ _ => CallResult.ok ""⟩,
       ⟨true, none, fun _ _ => StreamResult.chunks []⟩⟩
      = ⟨"Error: 'list' object has no attribute 'get'", 1, []⟩ :=
  (C10_nonobject_payload "[]" _ _ (JValue.jarr [])
    (by decide) rfl (fun fields h => by cases h)).1

/-- Concatenation, in stream order, of all streamed chunks' text
(a chunk whose `.text` is `None` contributes nothing).  This is the
spec's description of the Gemini result before trimming. -/
def concatTexts : List (Option String) → String
  | [] => ""
  | c :: rest => c.getD "" ++ concatTexts rest

/-- The handler's accumulation loop (which skips falsy chunk texts) computes
exactly the plain concatenation of all chunk texts. -/
theorem geminiCollect_eq_concatTexts (cs : List (Option String)) :
    geminiCollect cs = concatTexts cs := by
  have aux : ∀ (cs : List (Option String)) (acc : String),
      cs.foldl (fun acc c =>
        match c with
        | some t => if t ≠ "" then acc ++ t else acc
        | none => acc) acc = acc ++ concatTexts cs := by
    intro cs
    induction cs with
    | nil => intro acc; simp [concatTexts]
    | cons c rest ih =>
      intro acc
      rw [List.foldl_cons, ih]
      cases c with
      | none => simp [concatTexts, String.empty_append]
      | some t =>
        by_cases ht : t = ""
        · subst ht
          simp [concatTexts, String.empty_append]
        · simp [concatTexts, ht, String.append_assoc]
  unfold geminiCollect
  have h := aux cs ""
  rwa [String.empty_append] at h

/-- Claim C7: the Gemini handler's success result equals the concatenation,
in stream order, of all streamed chunks' text, whitespace-trimmed once at
the end.  The stream oracle returns the complete chunk sequence and the
handler's value is a function of that whole sequence, so the full stream is
consumed and buffered before anything is returned — no partial output can
be surfaced. -/
theorem C7_gemini_buffered_stream (env : GeminiEnv)
    (payload : List (String × JValue)) (ak mv pv cv : JValue)
    (cs : List (Option String))
    (hI : env.importOk = true) (hC : env.clientExn = none)
    (hak : getField payload "api_key" = some ak)
    (hm : getField payload "model" = some mv)
    (hp : getField payload "prompt" = some pv)
    (hc : getField payload "content" = some cv)
    (hstream : ∀ model msg, env.stream model msg = StreamResult.chunks cs) :
    process_gemini env payload = pyStrip (concatTexts cs) := by
  unfold process_gemini
  simp [hI, hC, hak, hm, hp, hc, hstream, geminiCollect_eq_concatTexts]

/-- Witness for C7: a stream of chunks `[" Hel", none, "", "lo "]` yields
the trimmed full concatenation `Hello`. -/
theorem C7_gemini_buffered_stream_witness :
    process_gemini
      ⟨true, none, fun _ _ =>
        StreamResult.chunks [some " Hel", none, some "", some "lo "]⟩
      [("provider", JValue.jstr "gemini"), ("api_key", JValue.jstr "k"),
       ("model", JValue.jstr "m"), ("prompt", JValue.jstr "p"),
       ("content", JValue.jstr "c")]
      = "Hello" := by
  have h := C7_gemini_buffered_stream
    ⟨true, none, fun _ _ =>
      StreamResult.chunks [some " Hel", none, some "", some "lo "]⟩
    [("provider", JValue.jstr "gemini"), ("api_key", JValue.jstr "k"),
     ("model", JValue.jstr "m"), ("prompt", JValue.jstr "p"),
     ("content", JValue.jstr "c")]
    (JValue.jstr "k") (JValue.jstr "m") (JValue.jstr "p") (JValue.jstr "c")
    [some " Hel", none, some "", some "lo "]
    rfl rfl rfl rfl rfl rfl (fun _ _ => rfl)
  rw [h]
  decide

/-- Claim C5: every handler sends the single user-turn message
`prompt ++ "\n\nContent to analyze:\n" ++ content` verbatim to the vendor:
for every possible vendor-call function the handler's result is that
function applied to exactly that message (so the message each handler
passes is pinned to the concatenation), identically in all three
handlers. -/
theorem C5_prompt_construction (payload : List (String × JValue))
    (ak mv : JValue) (p c : String)
    (hak : getField payload "api_key" = some ak)
    (hm : getField payload "model" = some mv)
    (hp : getField payload "prompt" = some (JValue.jstr p))
    (hc : getField payload "content" = some (JValue.jstr c)) :
    (∀ call : JValue → String → CallResult,
      process_openai ⟨true, none, call⟩ payload =
        match call (if truthy mv then mv else JValue.jstr "gpt-4o-mini")
            (p ++ "\n\nContent to analyze:\n" ++ c) with
        | CallResult.ok t => pyStrip t
        | CallResult.exn m => "OpenAI Error: " ++ m) ∧
    (∀ call : JValue → String → CallResult,
      process_claude ⟨true, none, call⟩ payload =
        match call (if truthy mv then mv else JValue.jstr "claude-3-5-haiku-20241022")
            (p ++ "\n\nContent to analyze:\n" ++ c) with
        | CallResult.ok t => pyStrip t
        | CallResult.exn m => "Claude Error: " ++ m) ∧
    (∀ stream : JValue → String → StreamResult,
      process_gemini ⟨true, none, stream⟩ payload =
        match stream (if truthy mv then mv else JValue.jstr "gemini-2.5-flash-preview-05-20")
            (p ++ "\n\nContent to analyze:\n" ++ c) with
        | StreamResult.chunks cs => pyStrip (geminiCollect cs)
        | StreamResult.exn m => "Gemini Error: " ++ m) := by
  refine ⟨fun call => ?_, fun call => ?_, fun stream => ?_⟩
  · unfold process_openai
    simp [hak, hm, hp, hc, pyStr]
  · unfold process_claude
    simp [hak, hm, hp, hc, pyStr]
  · unfold process_gemini
    simp [hak, hm, hp, hc, pyStr]

/-- Witness for C5: with a call oracle that echoes its message back, the
OpenAI handler's result is the exact concatenation for
`prompt = "Summarize:"`, `content = "Hello world"`. -/
theorem C5_prompt_construction_witness :
    process_openai ⟨true, none, fun _ msg => CallResult.ok msg⟩
      [("provider", JValue.jstr "openai"), ("api_key", JValue.jstr "k"),
       ("model", JValue.jstr "gpt-4o-mini"), ("prompt", JValue.jstr "Summarize:"),
       ("content", JValue.jstr "Hello world")]
      = "Summarize:\n\nContent to analyze:\nHello world" := by
  have h := (C5_prompt_construction
    [("provider", JValue.jstr "openai"), ("api_key", JValue.jstr "k"),
     ("model", JValue.jstr "gpt-4o-mini"), ("prompt", JValue.jstr "Summarize:"),
     ("content", JValue.jstr "Hello world")]
    (JValue.jstr "k") (JValue.jstr "gpt-4o-mini") "Summarize:" "Hello world"
    rfl rfl rfl rfl).1 (fun _ msg => CallResult.ok msg)
  rw [h]
  decide

/-- A validated request (all four required fields truthy) that omits the
`model` field entirely. -/
def payloadNoModel : List (String × JValue) :=
  [("provider", JValue.jstr "openai"), ("api_key", JValue.jstr "k"),
   ("prompt", JValue.jstr "p"), ("content", JValue.jstr "c")]

/-- A validated request whose `model` field is present but the empty
string. -/
def payloadEmptyModel : List (String × JValue) :=
  [("provider", JValue.jstr "openai"), ("api_key", JValue.jstr "k"),
   ("model", JValue.jstr ""), ("prompt", JValue.jstr "p"),
   ("content", JValue.jstr "c")]

/-- Claim C1 is false as stated: at a validated request that omits `model`
entirely, with the OpenAI library importable and a vendor call that would
return `A greeting.`, `process_openai` does not substitute the default
model and call the vendor — `payload["model"]` raises `KeyError`, caught
by the generic handler, so the result is the error string
`OpenAI Error: 'model'`. -/
theorem C1_omitted_model_counterexample :
    firstMissingField payloadNoModel = none ∧
    process_openai ⟨true, none, fun _ _ => CallResult.ok "A greeting."⟩ payloadNoModel
      = "OpenAI Error: 'model'" ∧
    process_openai ⟨true, none, fun _ _ => CallResult.ok "A greeting."⟩ payloadNoModel
      ≠ "A greeting." :=
  ⟨by decide, by decide, by decide⟩

/-- Claim C1, amended: for every validated request in which the `model`
field is *present but empty*, each handler substitutes its documented
default model string (`gpt-4o-mini`, `claude-3-5-haiku-20241022`,
`gemini-2.5-flash-preview-05-20`) and proceeds with the vendor call; when
the `model` field is *omitted entirely*, each handler instead returns the
error result `<Prefix> Error: 'model'` (the caught `KeyError`) without
calling the vendor. -/
theorem C1_default_model_amended
    (oa : OpenAIEnv) (cl : ClaudeEnv) (ge : GeminiEnv)
    (pe pm : List (String × JValue)) (ak ak' pv cv : JValue)
    (hoaI : oa.importOk = true) (hoaC : oa.clientExn = none)
    (hclI : cl.importOk = true) (hclC : cl.clientExn = none)
    (hgeI : ge.importOk = true) (hgeC : ge.clientExn = none)
    (heAk : getField pe "api_key" = some ak)
    (heM : getField pe "model" = some (JValue.jstr ""))
    (heP : getField pe "prompt" = some pv)
    (heC : getField pe "content" = some cv)
    (hmAk : getField pm "api_key" = some ak')
    (hmM : getField pm "model" = none) :
    (process_openai oa pe =
      match oa.call (JValue.jstr "gpt-4o-mini")
          (pyStr pv ++ "\n\nContent to analyze:\n" ++ pyStr cv) with
      | CallResult.ok t => pyStrip t
      | CallResult.exn m => "OpenAI Error: " ++ m) ∧
    (process_claude cl pe =
      match cl.call (JValue.jstr "claude-3-5-haiku-20241022")
          (pyStr pv ++ "\n\nContent to analyze:\n" ++ pyStr cv) with
      | CallResult.ok t => pyStrip t
      | CallResult.exn m => "Claude Error: " ++ m) ∧
    (process_gemini ge pe =
      match ge.stream (JValue.jstr "gemini-2.5-flash-preview-05-20")
          (pyStr pv ++ "\n\nContent to analyze:\n" ++ pyStr cv) with
      | StreamResult.chunks cs => pyStrip (geminiCollect cs)
      | StreamResult.exn m => "Gemini Error: " ++ m) ∧
    process_openai oa pm = "OpenAI Error: " ++ keyErrorMsg "model" ∧
    process_claude cl pm = "Claude Error: " ++ keyErrorMsg "model" ∧
    process_gemini ge pm = "Gemini Error: " ++ keyErrorMsg "model" := by
  refine ⟨?_, ?_, ?_, ?_, ?_, ?_⟩
  · unfold process_openai
    simp [hoaI, hoaC, heAk, heM, heP, heC, truthy]
  · unfold process_claude
    simp [hclI, hclC, heAk, heM, heP, heC, truthy]
  · unfold process_gemini
    simp [hgeI, hgeC, heAk, heM, heP, heC, truthy]
  · unfold process_openai
    simp [hoaI, hoaC, hmAk, hmM]
  · unfold process_claude
    simp [hclI, hclC, hmAk, hmM]
  · unfold process_gemini
    simp [hgeI, hgeC, hmAk, hmM]

/-- Witness for the amended C1: with vendor calls succeeding, an
empty-string `model` yields the vendor text (default model substituted)
and an omitted `model` yields the `'model'` error in all three handlers. -/
theorem C1_default_model_amended_witness :
    process_openai ⟨true, none, fun _ _ => CallResult.ok " A greeting. "⟩
      payloadEmptyModel = "A greeting." ∧
    process_claude ⟨true, none, fun _ _ => CallResult.ok " B "⟩
      payloadEmptyModel = "B" ∧
    process_gemini ⟨true, none, fun _ _ => StreamResult.chunks [some "x", some "y"]⟩
      payloadEmptyModel = "xy" ∧
    process_openai ⟨true, none, fun _ _ => CallResult.ok " A greeting. "⟩
      payloadNoModel = "OpenAI Error: 'model'" ∧
    process_claude ⟨true, none, fun _ _ => CallResult.ok " B "⟩
      payloadNoModel = "Claude Error: 'model'" ∧
    process_gemini ⟨true, none, fun _ _ => StreamResult.chunks [some "x", some "y"]⟩
      payloadNoModel = "Gemini Error: 'model'" := by
  have h := C1_default_model_amended
    ⟨true, none, fun _ _ => CallResult.ok " A greeting. "⟩
    ⟨true, none, fun _ _ => CallResult.ok " B "⟩
    ⟨true, none, fun _ _ => StreamResult.chunks [some "x", some "y"]⟩
    payloadEmptyModel payloadNoModel
    (JValue.jstr "k") (JValue.jstr "k") (JValue.jstr "p") (JValue.jstr "c")
    rfl rfl rfl rfl rfl rfl rfl rfl rfl rfl rfl rfl
  obtain ⟨h1, h2, h3, h4, h5, h6⟩ := h
  refine ⟨?_, ?_, ?_, ?_, ?_, ?_⟩
  · rw [h1]; decide
  · rw [h2]; decide
  · rw [h3]; decide
  · rw [h4]; decide
  · rw [h5]; decide
  · rw [h6]; decide

/-- Claim C3: no provider handler ever raises — every run of a handler
produces a result string.  If importing the vendor client library fails
the result is `Error: <Vendor> library not installed. Run: <install
instruction>` (vendor names OpenAI, Anthropic, Google GenAI); any other
exception raised during the vendor call is caught and converted to
`<Prefix> Error: <exception message>` (prefixes OpenAI/Claude/Gemini); and
in both cases `main` prints the handler's string as its output and exits
with code 0 (the handler result is total by construction, so nothing can
escape). -/
theorem C3_handlers_never_raise :
    (∀ (env : OpenAIEnv) payload, env.importOk = false →
      process_openai env payload
        = "Error: OpenAI library not installed. Run: pip install openai") ∧
    (∀ (env : ClaudeEnv) payload, env.importOk = false →
      process_claude env payload
        = "Error: Anthropic library not installed. Run: pip install anthropic") ∧
    (∀ (env : GeminiEnv) payload, env.importOk = false →
      process_gemini env payload
        = "Error: Google GenAI library not installed. Run: pip install google-genai") ∧
    (∀ (env : OpenAIEnv) payload ak mv pv cv m,
      env.importOk = true → env.clientExn = none →
      getField payload "api_key" = some ak →
      getField payload "model" = some mv →
      getField payload "prompt" = some pv →
      getField payload "content" = some cv →
      (∀ model msg, env.call model msg = CallResult.exn m) →
      process_openai env payload = "OpenAI Error: " ++ m) ∧
    (∀ (env : ClaudeEnv) payload ak mv pv cv m,
      env.importOk = true → env.clientExn = none →
      getField payload "api_key" = some ak →
      getField payload "model" = some mv →
      getField payload "prompt" = some pv →
      getField payload "content" = some cv →
      (∀ model msg, env.call model msg = CallResult.exn m) →
      process_claude env payload = "Claude Error: " ++ m) ∧
    (∀ (env : GeminiEnv) payload ak mv pv cv m,
      env.importOk = true → env.clientExn = none →
      getField payload "api_key" = some ak →
      getField payload "model" = some mv →
      getField payload "prompt" = some pv →
      getField payload "content" = some cv →
      (∀ model msg, env.stream model msg = StreamResult.exn m) →
      process_gemini env payload = "Gemini Error: " ++ m) ∧
    (∀ (stdin : String) (parse : String → Except String JValue) (w : World)
        (fields : List (String × JValue)) (s : String),
      pyStrip stdin ≠ "" →
      parse (pyStrip stdin) = Except.ok (JValue.jobj fields) →
      firstMissingField fields = none →
      getField fields "provider" = some (JValue.jstr s) →
      (pyLower s = "openai" ∨ pyLower s = "claude" ∨ pyLower s = "gemini") →
      (main stdin parse w).exitCode = 0 ∧
      (main stdin parse w).output =
        (if pyLower s = "openai" then process_openai w.openaiEnv fields
         else if pyLower s = "claude" then process_claude w.claudeEnv fields
         else process_gemini w.geminiEnv fields)) := by
  refine ⟨?_, ?_, ?_, ?_, ?_, ?_, ?_⟩
  · intro env payload h
    unfold process_openai
    simp [h]
  · intro env payload h
    unfold process_claude
    simp [h]
  · intro env payload h
    unfold process_gemini
    simp [h]
  · intro env payload ak mv pv cv m hI hC hak hm hp hc hcall
    unfold process_openai
    simp [hI, hC, hak, hm, hp, hc, hcall]
  · intro env payload ak mv pv cv m hI hC hak hm hp hc hcall
    unfold process_claude
    simp [hI, hC, hak, hm, hp, hc, hcall]
  · intro env payload ak mv pv cv m hI hC hak hm hp hc hcall
    unfold process_gemini
    simp [hI, hC, hak, hm, hp, hc, hcall]
  · intro stdin parse w fields s hne hparse hval hprov hor
    rcases hor with h | h | h <;>
      exact ⟨by simp [main, hne, hparse, hval, hprov, h],
             by simp [main, hne, hparse, hval, hprov, h]⟩

/-- A world in which none of the three vendor libraries is importable. -/
def worldNoLibs : World :=
  ⟨⟨false, none, fun _ _ => CallResult.ok ""⟩,
   ⟨false, none, fun _ _ => CallResult.ok ""⟩,
   ⟨false, none, fun _ _ => StreamResult.chunks []⟩⟩

/-- Witness for C3: each handler's import-failure and caught-exception
strings at concrete inputs, and a full run on which the import-failure
string is printed with exit code 0. -/
theorem C3_handlers_never_raise_witness :
    process_openai ⟨false, none, fun _ _ => CallResult.ok ""⟩ []
      = "Error: OpenAI library not installed. Run: pip install openai" ∧
    process_claude ⟨false, none, fun _ _ => CallResult.ok ""⟩ []
      = "Error: Anthropic library not installed. Run: pip install anthropic" ∧
    process_gemini ⟨false, none, fun _ _ => StreamResult.chunks []⟩ []
      = "Error: Google GenAI library not installed. Run: pip install google-genai" ∧
    process_openai ⟨true, none, fun _ _ => CallResult.exn "Incorrect API key provided"⟩
      payloadEmptyModel = "OpenAI Error: Incorrect API key provided" ∧
    process_claude ⟨true, none, fun _ _ => CallResult.exn "overloaded"⟩
      payloadEmptyModel = "Claude Error: overloaded" ∧
    process_gemini ⟨true, none, fun _ _ => StreamResult.exn "quota exceeded"⟩
      payloadEmptyModel = "Gemini Error: quota exceeded" ∧
    (main "x" (fun _ => Except.ok (JValue.jobj payloadNoModel)) worldNoLibs).exitCode = 0 ∧
    (main "x" (fun _ => Except.ok (JValue.jobj payloadNoModel)) worldNoLibs).output
      = "Error: OpenAI library not installed. Run: pip install openai" := by
  obtain ⟨h1, h2, h3, h4, h5, h6, h7⟩ := C3_handlers_never_raise
  have h7i := h7 "x" (fun _ => Except.ok (JValue.jobj payloadNoModel)) worldNoLibs
    payloadNoModel "openai" (by decide) rfl rfl rfl (Or.inl (by decide))
  refine ⟨h1 _ _ rfl, h2 _ _ rfl, h3 _ _ rfl,
    h4 _ payloadEmptyModel _ _ _ _ _ rfl rfl rfl rfl rfl rfl (fun _ _ => rfl),
    h5 _ payloadEmptyModel _ _ _ _ _ rfl rfl rfl rfl rfl rfl (fun _ _ => rfl),
    h6 _ payloadEmptyModel _ _ _ _ _ rfl rfl rfl rfl rfl rfl (fun _ _ => rfl),
    h7i.1, ?_⟩
  rw [h7i.2]
  decide

end AIProcessor
